import Mathlib

/-!
Shallow embedding of the Hyperledger Fabric demo driver
`asset-transfer-basic/application-javascript/app.js`.

The script is a straight-line asynchronous driver: it builds a connection
profile, a CA client and a wallet, enrolls an admin and an application user,
connects a gateway, resolves a channel and a contract, submits `InitLedger`
and five hardcoded `Transfer` transactions, and finally disconnects the
gateway; one top-level try/catch logs any error and terminates the process
with status 1.

Every external call (SDK helpers, CA, ledger, and the built-in
`JSON.parse`/`JSON.stringify` pair) is modelled by an outcome recorded in an
environment `Env`: an `Except String _` value, `.error e` standing for the
call rejecting/throwing with message `e`.  The driver itself is the function
`run : Env -> List Event × Nat`, returning the ordered trace of observable
events (calls issued, console output, the gateway disconnect) and the exit
status of the process (0 for a normal exit, 1 for `process.exit(1)`).
-/

/-- Channel name computed at module load:
`process.env.CHANNEL_NAME || 'mychannel'` (app.js line 15).  The JS `||`
falls back on any falsy value, so both an unset and an empty variable give
the default. -/
def channelName (v : Option String) : String :=
  match v with
  | none => "mychannel"
  | some s => if s = "" then "mychannel" else s

/-- Chaincode name computed at module load:
`process.env.CHAINCODE_NAME || 'basic'` (app.js line 16). -/
def chaincodeName (v : Option String) : String :=
  match v with
  | none => "basic"
  | some s => if s = "" then "basic" else s

/-- Constant `mspOrg1 = 'Org1MSP'` (app.js line 18). -/
def mspOrg1 : String := "Org1MSP"

/-- Constant `org1UserId = 'javascriptAppUser'` (app.js line 20). -/
def org1UserId : String := "javascriptAppUser"

/-- Helper `prettyJSONString` (app.js lines 22-24):
`JSON.stringify(JSON.parse(inputString), null, 2)`.  `JSON.parse` and
`JSON.stringify` are JavaScript built-ins external to the repository, so the
composite parse-then-pretty-print behaviour is supplied by the environment
as a function `jsonPretty`; `.error e` models `JSON.parse` throwing a
`SyntaxError` on input that is not valid JSON, which the helper propagates. -/
def prettyJSONString (jsonPretty : String → Except String String)
    (inputString : String) : Except String String :=
  jsonPretty inputString

/-- Observable events of one run of the driver, in program order. -/
inductive Event where
  | enrollAdminCall (wallet : Nat) (msp : String)
  | registerCall (wallet : Nat) (msp : String) (userId : String) (affiliation : String)
  | connectCall (wallet : Nat) (identity : String)
  | getNetworkCall (channel : String)
  | getContractCall (chaincode : String)
  | submitCall (fn : String) (args : List String)
  | logLine (s : String)
  | logError (s : String)
  | disconnect
  deriving DecidableEq, Repr

/-- Outcomes of the external calls the driver makes, one field per call
site, in program order.  A wallet is identified by a `Nat` handle so that
object identity (the same wallet being passed to enrollment and to
`gateway.connect`) is expressible.  `jsonPretty` is the external
`JSON.parse` + `JSON.stringify` behaviour used by `prettyJSONString`;
`channelVar`/`chaincodeVar` are the values of the environment variables
`CHANNEL_NAME`/`CHAINCODE_NAME` (`none` = unset). -/
structure Env where
  buildCCP : Except String Unit
  buildCAClient : Except String Unit
  buildWallet : Except String Nat
  enrollAdmin : Except String Unit
  registerAndEnrollUser : Except String Unit
  connect : Except String Unit
  getNetwork : Except String Unit
  getContract : Except String Unit
  initLedger : Except String Unit
  transfer1 : Except String String
  transfer2 : Except String String
  transfer3 : Except String String
  transfer4 : Except String String
  transfer5 : Except String String
  jsonPretty : String → Except String String
  channelVar : Option String
  chaincodeVar : Option String

/-- Sequencing of two traced steps: the second step is attempted (its
events appear in the trace) only when the first one succeeded; a thrown
error short-circuits, exactly as a rejected `await` does in the script. -/
def seqT (a : List Event × Except String Unit) (b : List Event × Except String Unit) :
    List Event × Except String Unit :=
  match a with
  | (tr, Except.error e) => (tr, Except.error e)
  | (tr, Except.ok _) => (tr ++ b.1, b.2)

/-- One `Transfer` block of the script (app.js lines 136-164): log the
banner, submit `Transfer` with the three literal arguments, and on success
log the pretty-printed result; a rejected submission or a
`prettyJSONString` throw ends the block with that error. -/
def doTransfer (jsonPretty : String → Except String String)
    (label fromA toA amount : String) (outcome : Except String String) :
    List Event × Except String Unit :=
  match outcome with
  | Except.error e =>
      ([Event.logLine label, Event.submitCall "Transfer" [fromA, toA, amount]],
       Except.error e)
  | Except.ok payload =>
      match prettyJSONString jsonPretty payload with
      | Except.error e =>
          ([Event.logLine label, Event.submitCall "Transfer" [fromA, toA, amount]],
           Except.error e)
      | Except.ok t =>
          ([Event.logLine label, Event.submitCall "Transfer" [fromA, toA, amount],
            Event.logLine ("*** Result: " ++ t)],
           Except.ok ())

/-- The five literal `Transfer` blocks of the script (app.js lines
136-163), in their fixed source order, each attempted only when the
previous one completed. -/
def transfersChain (env : Env) : List Event × Except String Unit :=
  seqT (doTransfer env.jsonPretty "\n--> 트랜스퍼 101"
          "7cafb40b30e8f7f0c8f57393e2ea63ff58a95907"
          "f5c705db130ec0cbda536bfacc8e38425b427862" "7500000" env.transfer1)
  (seqT (doTransfer env.jsonPretty "\n--> 트랜스퍼 102"
          "1a677a3795f8a24b5dd99f83ea31f87595e25db1"
          "18f1b4386f2e19e7dbf169ab2469c8fa8bc02976" "1000000" env.transfer2)
  (seqT (doTransfer env.jsonPretty "\n--> 트랜스퍼 3"
          "0a8077182848001f47826e249f5d8e821ea263bd"
          "1a677a3795f8a24b5dd99f83ea31f87595e25db1" "100000" env.transfer3)
  (seqT (doTransfer env.jsonPretty "\n--> 트랜스퍼 4"
          "1a677a3795f8a24b5dd99f83ea31f87595e25db1"
          "b284bea203a5c7e0fbae062650c067297579106a" "129000000" env.transfer4)
  (doTransfer env.jsonPretty "\n--> 트랜스퍼 5"
          "78e15f1699dbb6c8a438e90c02044cfa9b9233f3"
          "17732863dbd50ee07039048d05d1a144297492b2" "220000000" env.transfer5))))

/-- Body of the inner `try` block (app.js lines 101-164): connect the
gateway with the wallet and user identity, resolve the network and the
contract, submit `InitLedger`, then the five literal `Transfer` calls in
their fixed source order. -/
def tryBlock (env : Env) (w : Nat) : List Event × Except String Unit :=
  seqT ([Event.connectCall w org1UserId], env.connect)
  (seqT ([Event.getNetworkCall (channelName env.channelVar)], env.getNetwork)
  (seqT ([Event.getContractCall (chaincodeName env.chaincodeVar)], env.getContract)
  (seqT ([Event.logLine "\n--> Submit Transaction: InitLedger, function creates the initial set of assets on the ledger",
          Event.submitCall "InitLedger" []], env.initLedger)
  (seqT ([Event.logLine "*** Result: committed"], Except.ok ())
  (transfersChain env)))))

/-- Message logged by the top-level catch:
`console.error(... FAILED to run the application: error)` (app.js line 174). -/
def failMsg (e : String) : String :=
  "******** FAILED to run the application: " ++ e

/-- One run of `main()` (app.js lines 73-181): the setup steps in order,
then the inner try/finally (whose `finally` always fires the gateway
disconnect once the gateway exists), then the top-level catch, which logs
the error and calls `process.exit(1)`.  Result: the event trace and the
process exit status (0 on a normal exit). -/
def run (env : Env) : List Event × Nat :=
  match env.buildCCP with
  | Except.error e => ([Event.logError (failMsg e)], 1)
  | Except.ok _ =>
  match env.buildCAClient with
  | Except.error e => ([Event.logError (failMsg e)], 1)
  | Except.ok _ =>
  match env.buildWallet with
  | Except.error e => ([Event.logError (failMsg e)], 1)
  | Except.ok w =>
  match env.enrollAdmin with
  | Except.error e =>
      ([Event.enrollAdminCall w mspOrg1, Event.logError (failMsg e)], 1)
  | Except.ok _ =>
  match env.registerAndEnrollUser with
  | Except.error e =>
      ([Event.enrollAdminCall w mspOrg1,
        Event.registerCall w mspOrg1 org1UserId "org1.department1",
        Event.logError (failMsg e)], 1)
  | Except.ok _ =>
  match tryBlock env w with
  | (tr, Except.error e) =>
      ([Event.enrollAdminCall w mspOrg1,
        Event.registerCall w mspOrg1 org1UserId "org1.department1"]
        ++ tr ++ [Event.disconnect, Event.logError (failMsg e)], 1)
  | (tr, Except.ok _) =>
      ([Event.enrollAdminCall w mspOrg1,
        Event.registerCall w mspOrg1 org1UserId "org1.department1"]
        ++ tr ++ [Event.disconnect], 0)

/-- All submissions in a trace: pairs (function name, argument list) of
`submitCall` events, in order. -/
def submitsOf (tr : List Event) : List (String × List String) :=
  tr.filterMap fun e =>
    match e with
    | Event.submitCall f a => some (f, a)
    | _ => none

/-- Argument lists of the `Transfer` submissions in a trace, in order. -/
def transferSubmits (tr : List Event) : List (List String) :=
  tr.filterMap fun e =>
    match e with
    | Event.submitCall f a => if f = "Transfer" then some a else none
    | _ => none

/-- Test whether an event is the gateway disconnect. -/
def isDisconnect (e : Event) : Bool :=
  match e with
  | Event.disconnect => true
  | _ => false

/-- Number of gateway disconnects in a trace. -/
def disconnectCount (tr : List Event) : Nat :=
  tr.countP isDisconnect

/-- Messages of the `console.error` lines in a trace, in order. -/
def errorLogs (tr : List Event) : List String :=
  tr.filterMap fun e =>
    match e with
    | Event.logError s => some s
    | _ => none

/-- The five literal `Transfer` argument triples of the source, in their
source order (app.js lines 136-163). -/
def transferArgsList : List (List String) :=
  [["7cafb40b30e8f7f0c8f57393e2ea63ff58a95907",
    "f5c705db130ec0cbda536bfacc8e38425b427862", "7500000"],
   ["1a677a3795f8a24b5dd99f83ea31f87595e25db1",
    "18f1b4386f2e19e7dbf169ab2469c8fa8bc02976", "1000000"],
   ["0a8077182848001f47826e249f5d8e821ea263bd",
    "1a677a3795f8a24b5dd99f83ea31f87595e25db1", "100000"],
   ["1a677a3795f8a24b5dd99f83ea31f87595e25db1",
    "b284bea203a5c7e0fbae062650c067297579106a", "129000000"],
   ["78e15f1699dbb6c8a438e90c02044cfa9b9233f3",
    "17732863dbd50ee07039048d05d1a144297492b2", "220000000"]]

/-- Outcome of the n-th `Transfer` submission (0-based) in an environment. -/
def transferOutcome (env : Env) : Fin 5 → Except String String :=
  fun n =>
    match n with
    | ⟨0, _⟩ => env.transfer1
    | ⟨1, _⟩ => env.transfer2
    | ⟨2, _⟩ => env.transfer3
    | ⟨3, _⟩ => env.transfer4
    | ⟨4, _⟩ => env.transfer5

/-- The setup phase (profile, CA client, wallet, admin enrollment, user
registration) all succeeded. -/
def setupOk (env : Env) : Prop :=
  env.buildCCP = Except.ok () ∧ env.buildCAClient = Except.ok () ∧
  (∃ w, env.buildWallet = Except.ok w) ∧
  env.enrollAdmin = Except.ok () ∧ env.registerAndEnrollUser = Except.ok ()

/-- A transfer outcome that lets its block complete: the submission
resolved with a payload that the JSON pretty-printer accepts. -/
def transferOk (jsonPretty : String → Except String String)
    (o : Except String String) : Prop :=
  ∃ p t, o = Except.ok p ∧ jsonPretty p = Except.ok t

/-- Every step of the run succeeds, including the JSON formatting of each
transfer result. -/
def allOk (env : Env) : Prop :=
  setupOk env ∧ env.connect = Except.ok () ∧ env.getNetwork = Except.ok () ∧
  env.getContract = Except.ok () ∧ env.initLedger = Except.ok () ∧
  transferOk env.jsonPretty env.transfer1 ∧
  transferOk env.jsonPretty env.transfer2 ∧
  transferOk env.jsonPretty env.transfer3 ∧
  transferOk env.jsonPretty env.transfer4 ∧
  transferOk env.jsonPretty env.transfer5

/-- A concrete environment in which every external call succeeds: wallet
handle 0, every transfer resolving with payload "null" (valid JSON), the
JSON pretty-printer echoing its input, both environment variables unset. -/
def envAllOk : Env :=
  ⟨Except.ok (), Except.ok (), Except.ok 0, Except.ok (), Except.ok (),
   Except.ok (), Except.ok (), Except.ok (), Except.ok (),
   Except.ok "null", Except.ok "null", Except.ok "null", Except.ok "null",
   Except.ok "null", fun s => Except.ok s, none, none⟩

/-- A concrete environment whose very first step, the connection-profile
build, throws. -/
def envNoCCP : Env :=
  ⟨Except.error "ENOENT", Except.ok (), Except.ok 0, Except.ok (), Except.ok (),
   Except.ok (), Except.ok (), Except.ok (), Except.ok (),
   Except.ok "null", Except.ok "null", Except.ok "null", Except.ok "null",
   Except.ok "null", fun s => Except.ok s, none, none⟩

/-- A concrete environment identical to `envAllOk` except that the gateway
connect rejects. -/
def envConnectFail : Env :=
  ⟨Except.ok (), Except.ok (), Except.ok 0, Except.ok (), Except.ok (),
   Except.error "gateway unreachable", Except.ok (), Except.ok (), Except.ok (),
   Except.ok "null", Except.ok "null", Except.ok "null", Except.ok "null",
   Except.ok "null", fun s => Except.ok s, none, none⟩

/-- A concrete environment in which every submission succeeds but the first
transfer resolves with an empty payload, which `JSON.parse` rejects. -/
def envEmptyPayload : Env :=
  ⟨Except.ok (), Except.ok (), Except.ok 0, Except.ok (), Except.ok (),
   Except.ok (), Except.ok (), Except.ok (), Except.ok (),
   Except.ok "", Except.ok "null", Except.ok "null", Except.ok "null",
   Except.ok "null",
   fun s => if s = "" then Except.error "Unexpected end of JSON input"
            else Except.ok s,
   none, none⟩

/-- A concrete environment identical to `envAllOk` except that the second
transfer submission rejects. -/
def envT2Fail : Env :=
  ⟨Except.ok (), Except.ok (), Except.ok 0, Except.ok (), Except.ok (),
   Except.ok (), Except.ok (), Except.ok (), Except.ok (),
   Except.ok "null", Except.error "endorsement failure", Except.ok "null",
   Except.ok "null", Except.ok "null", fun s => Except.ok s, none, none⟩

/-- The full event trace of an all-success run: wallet handle `w`, channel
and chaincode names `ch`/`cc`, and the five pretty-printed transfer results
`t1`..`t5`.  It carries one confirmation line per submitted transaction:
the committed line after `InitLedger` and one result line after each of the
five `Transfer` submissions. -/
def fullSuccessTrace (w : Nat) (ch cc t1 t2 t3 t4 t5 : String) : List Event :=
  [Event.enrollAdminCall w mspOrg1,
   Event.registerCall w mspOrg1 org1UserId "org1.department1",
   Event.connectCall w org1UserId,
   Event.getNetworkCall ch,
   Event.getContractCall cc,
   Event.logLine "\n--> Submit Transaction: InitLedger, function creates the initial set of assets on the ledger",
   Event.submitCall "InitLedger" [],
   Event.logLine "*** Result: committed",
   Event.logLine "\n--> 트랜스퍼 101",
   Event.submitCall "Transfer"
     ["7cafb40b30e8f7f0c8f57393e2ea63ff58a95907",
      "f5c705db130ec0cbda536bfacc8e38425b427862", "7500000"],
   Event.logLine ("*** Result: " ++ t1),
   Event.logLine "\n--> 트랜스퍼 102",
   Event.submitCall "Transfer"
     ["1a677a3795f8a24b5dd99f83ea31f87595e25db1",
      "18f1b4386f2e19e7dbf169ab2469c8fa8bc02976", "1000000"],
   Event.logLine ("*** Result: " ++ t2),
   Event.logLine "\n--> 트랜스퍼 3",
   Event.submitCall "Transfer"
     ["0a8077182848001f47826e249f5d8e821ea263bd",
      "1a677a3795f8a24b5dd99f83ea31f87595e25db1", "100000"],
   Event.logLine ("*** Result: " ++ t3),
   Event.logLine "\n--> 트랜스퍼 4",
   Event.submitCall "Transfer"
     ["1a677a3795f8a24b5dd99f83ea31f87595e25db1",
      "b284bea203a5c7e0fbae062650c067297579106a", "129000000"],
   Event.logLine ("*** Result: " ++ t4),
   Event.logLine "\n--> 트랜스퍼 5",
   Event.submitCall "Transfer"
     ["78e15f1699dbb6c8a438e90c02044cfa9b9233f3",
      "17732863dbd50ee07039048d05d1a144297492b2", "220000000"],
   Event.logLine ("*** Result: " ++ t5),
   Event.disconnect]

example : (run envAllOk).2 = 0 := by decide
example : transferSubmits (run envAllOk).1 = transferArgsList := by decide
example : (run envNoCCP).2 = 1 := by decide
example : disconnectCount (run envNoCCP).1 = 0 := by decide
example : disconnectCount (run envAllOk).1 = 1 := by decide

/-- Events of a sequenced step come from one of its two parts. -/
lemma mem_seqT {e : Event} {a b : List Event × Except String Unit}
    (h : e ∈ (seqT a b).1) : e ∈ a.1 ∨ e ∈ b.1 := by
  rcases a with ⟨tr, r⟩
  cases r with
  | error msg => exact Or.inl (by simpa [seqT] using h)
  | ok u => simpa [seqT] using h

/-- A sequenced step succeeds exactly when both parts do. -/
lemma seqT_ok {a b : List Event × Except String Unit} :
    (seqT a b).2 = Except.ok () ↔
      (a.2 = Except.ok () ∧ b.2 = Except.ok ()) := by
  rcases a with ⟨tr, r⟩
  cases r <;> simp [seqT]

/-- Events of a transfer block: its banner or result line, or its one
`Transfer` submission with the three given arguments. -/
lemma doTransfer_mem {jp : String → Except String String} {l fa ta am : String}
    {o : Except String String} {e : Event}
    (h : e ∈ (doTransfer jp l fa ta am o).1) :
    (∃ s, e = Event.logLine s) ∨ e = Event.submitCall "Transfer" [fa, ta, am] := by
  cases o with
  | error msg =>
      simp [doTransfer] at h
      rcases h with h | h
      · exact Or.inl ⟨l, h⟩
      · exact Or.inr h
  | ok p =>
      cases hp : jp p with
      | error msg =>
          simp [doTransfer, prettyJSONString, hp] at h
          rcases h with h | h
          · exact Or.inl ⟨l, h⟩
          · exact Or.inr h
      | ok t =>
          simp [doTransfer, prettyJSONString, hp] at h
          rcases h with h | h | h
          · exact Or.inl ⟨l, h⟩
          · exact Or.inr h
          · exact Or.inl ⟨_, h⟩

/-- A transfer block succeeds exactly when the submission resolved and the
payload pretty-printed. -/
lemma doTransfer_ok {jp : String → Except String String} {l fa ta am : String}
    {o : Except String String} :
    (doTransfer jp l fa ta am o).2 = Except.ok () ↔ transferOk jp o := by
  cases o with
  | error msg => simp [doTransfer, transferOk]
  | ok p =>
      cases hp : jp p with
      | error msg => simp [doTransfer, prettyJSONString, hp, transferOk]
      | ok t => simp [doTransfer, prettyJSONString, hp, transferOk]

/-- Shape of every event the five-transfer chain can emit: a console line
or a `Transfer` submission with one of the five literal argument triples. -/
lemma transfersChain_mem {env : Env} {e : Event}
    (h : e ∈ (transfersChain env).1) :
    (∃ s, e = Event.logLine s) ∨
    (∃ args, args ∈ transferArgsList ∧ e = Event.submitCall "Transfer" args) := by
  unfold transfersChain at h
  rcases mem_seqT h with h | h
  · rcases doTransfer_mem h with h | h
    · exact Or.inl h
    · exact Or.inr ⟨_, by decide, h⟩
  rcases mem_seqT h with h | h
  · rcases doTransfer_mem h with h | h
    · exact Or.inl h
    · exact Or.inr ⟨_, by decide, h⟩
  rcases mem_seqT h with h | h
  · rcases doTransfer_mem h with h | h
    · exact Or.inl h
    · exact Or.inr ⟨_, by decide, h⟩
  rcases mem_seqT h with h | h
  · rcases doTransfer_mem h with h | h
    · exact Or.inl h
    · exact Or.inr ⟨_, by decide, h⟩
  · rcases doTransfer_mem h with h | h
    · exact Or.inl h
    · exact Or.inr ⟨_, by decide, h⟩

/-- The five-transfer chain succeeds exactly when every one of the five
transfer blocks does. -/
lemma transfersChain_ok {env : Env} :
    (transfersChain env).2 = Except.ok () ↔
      (transferOk env.jsonPretty env.transfer1 ∧
       transferOk env.jsonPretty env.transfer2 ∧
       transferOk env.jsonPretty env.transfer3 ∧
       transferOk env.jsonPretty env.transfer4 ∧
       transferOk env.jsonPretty env.transfer5) := by
  unfold transfersChain
  rw [seqT_ok, seqT_ok, seqT_ok, seqT_ok]
  simp [doTransfer_ok]

/-- Shape of every event the inner try block can emit: the one gateway
connect with the enrolled user identity, the network and contract
resolutions with the configured names, console lines, the `InitLedger`
submission, or a `Transfer` submission with one of the five literal
argument triples. -/
lemma tryBlock_mem {env : Env} {w : Nat} {e : Event}
    (h : e ∈ (tryBlock env w).1) :
    e = Event.connectCall w org1UserId ∨
    e = Event.getNetworkCall (channelName env.channelVar) ∨
    e = Event.getContractCall (chaincodeName env.chaincodeVar) ∨
    (∃ s, e = Event.logLine s) ∨
    e = Event.submitCall "InitLedger" [] ∨
    (∃ args, args ∈ transferArgsList ∧ e = Event.submitCall "Transfer" args) := by
  unfold tryBlock at h
  rcases mem_seqT h with h | h
  · exact Or.inl (by simpa using h)
  rcases mem_seqT h with h | h
  · exact Or.inr (Or.inl (by simpa using h))
  rcases mem_seqT h with h | h
  · exact Or.inr (Or.inr (Or.inl (by simpa using h)))
  rcases mem_seqT h with h | h
  · simp at h
    rcases h with h | h
    · exact Or.inr (Or.inr (Or.inr (Or.inl ⟨_, h⟩)))
    · exact Or.inr (Or.inr (Or.inr (Or.inr (Or.inl h))))
  rcases mem_seqT h with h | h
  · exact Or.inr (Or.inr (Or.inr (Or.inl ⟨_, by simpa using h⟩)))
  · rcases transfersChain_mem h with h | h
    · exact Or.inr (Or.inr (Or.inr (Or.inl h)))
    · exact Or.inr (Or.inr (Or.inr (Or.inr (Or.inr h))))

/-- The inner try block never disconnects the gateway itself. -/
lemma tryBlock_disconnectCount (env : Env) (w : Nat) :
    disconnectCount (tryBlock env w).1 = 0 := by
  unfold disconnectCount
  rw [List.countP_eq_zero]
  intro e he
  rcases tryBlock_mem he with h | h | h | ⟨s, h⟩ | h | ⟨args, _, h⟩ <;>
    subst h <;> simp [isDisconnect]

/-- The inner try block writes no `console.error` line. -/
lemma tryBlock_errorLogs (env : Env) (w : Nat) :
    errorLogs (tryBlock env w).1 = [] := by
  unfold errorLogs
  rw [List.filterMap_eq_nil_iff]
  intro e he
  rcases tryBlock_mem he with h | h | h | ⟨s, h⟩ | h | ⟨args, _, h⟩ <;>
    subst h <;> rfl

/-- The inner try block succeeds exactly when the gateway connect, network
and contract resolution, `InitLedger`, and all five transfer blocks do. -/
lemma tryBlock_ok {env : Env} {w : Nat} :
    (tryBlock env w).2 = Except.ok () ↔
      (env.connect = Except.ok () ∧ env.getNetwork = Except.ok () ∧
       env.getContract = Except.ok () ∧ env.initLedger = Except.ok () ∧
       transferOk env.jsonPretty env.transfer1 ∧
       transferOk env.jsonPretty env.transfer2 ∧
       transferOk env.jsonPretty env.transfer3 ∧
       transferOk env.jsonPretty env.transfer4 ∧
       transferOk env.jsonPretty env.transfer5) := by
  unfold tryBlock
  rw [seqT_ok, seqT_ok, seqT_ok, seqT_ok, seqT_ok, transfersChain_ok]
  simp

/-- Run of the driver when the profile build throws. -/
lemma run_fail_ccp {env : Env} {e : String} (h : env.buildCCP = Except.error e) :
    run env = ([Event.logError (failMsg e)], 1) := by
  simp [run, h]

/-- Run of the driver when the CA client build throws. -/
lemma run_fail_ca {env : Env} {e : String} (h1 : env.buildCCP = Except.ok ())
    (h : env.buildCAClient = Except.error e) :
    run env = ([Event.logError (failMsg e)], 1) := by
  simp [run, h1, h]

/-- Run of the driver when the wallet build throws. -/
lemma run_fail_wallet {env : Env} {e : String} (h1 : env.buildCCP = Except.ok ())
    (h2 : env.buildCAClient = Except.ok ())
    (h : env.buildWallet = Except.error e) :
    run env = ([Event.logError (failMsg e)], 1) := by
  simp [run, h1, h2, h]

/-- Run of the driver when the admin enrollment throws. -/
lemma run_fail_admin {env : Env} {w : Nat} {e : String}
    (h1 : env.buildCCP = Except.ok ()) (h2 : env.buildCAClient = Except.ok ())
    (h3 : env.buildWallet = Except.ok w)
    (h : env.enrollAdmin = Except.error e) :
    run env = ([Event.enrollAdminCall w mspOrg1, Event.logError (failMsg e)], 1) := by
  simp [run, h1, h2, h3, h]

/-- Run of the driver when the user registration throws. -/
lemma run_fail_register {env : Env} {w : Nat} {e : String}
    (h1 : env.buildCCP = Except.ok ()) (h2 : env.buildCAClient = Except.ok ())
    (h3 : env.buildWallet = Except.ok w) (h4 : env.enrollAdmin = Except.ok ())
    (h : env.registerAndEnrollUser = Except.error e) :
    run env = ([Event.enrollAdminCall w mspOrg1,
      Event.registerCall w mspOrg1 org1UserId "org1.department1",
      Event.logError (failMsg e)], 1) := by
  simp [run, h1, h2, h3, h4, h]

/-- Run of the driver once the whole setup phase succeeded: the enrollment
events, then the inner try block, then exactly one disconnect, then the
catch block of a thrown error if there was one. -/
lemma run_setup_ok {env : Env} {w : Nat}
    (h1 : env.buildCCP = Except.ok ()) (h2 : env.buildCAClient = Except.ok ())
    (h3 : env.buildWallet = Except.ok w) (h4 : env.enrollAdmin = Except.ok ())
    (h5 : env.registerAndEnrollUser = Except.ok ()) :
    run env =
      (match tryBlock env w with
       | (tr, Except.error e) =>
           ([Event.enrollAdminCall w mspOrg1,
             Event.registerCall w mspOrg1 org1UserId "org1.department1"]
             ++ tr ++ [Event.disconnect, Event.logError (failMsg e)], 1)
       | (tr, Except.ok _) =>
           ([Event.enrollAdminCall w mspOrg1,
             Event.registerCall w mspOrg1 org1UserId "org1.department1"]
             ++ tr ++ [Event.disconnect], 0)) := by
  simp [run, h1, h2, h3, h4, h5]

@[simp] lemma errorLogs_append (a b : List Event) :
    errorLogs (a ++ b) = errorLogs a ++ errorLogs b := by
  simp [errorLogs]

@[simp] lemma submitsOf_append (a b : List Event) :
    submitsOf (a ++ b) = submitsOf a ++ submitsOf b := by
  simp [submitsOf]

@[simp] lemma transferSubmits_append (a b : List Event) :
    transferSubmits (a ++ b) = transferSubmits a ++ transferSubmits b := by
  simp [transferSubmits]

@[simp] lemma disconnectCount_append (a b : List Event) :
    disconnectCount (a ++ b) = disconnectCount a + disconnectCount b := by
  simp [disconnectCount]

/-- Shape of every event a run can emit; enrollment, registration and the
gateway connect all use the one wallet handle returned by the wallet build,
the registered user label and MSP, and the network and contract names come
from the configuration defaults. -/
lemma run_mem {env : Env} {e : Event} (h : e ∈ (run env).1) :
    (∃ s, e = Event.logError s) ∨ e = Event.disconnect ∨
    (∃ w, env.buildWallet = Except.ok w ∧
      (e = Event.enrollAdminCall w mspOrg1 ∨
       e = Event.registerCall w mspOrg1 org1UserId "org1.department1" ∨
       e = Event.connectCall w org1UserId)) ∨
    e = Event.getNetworkCall (channelName env.channelVar) ∨
    e = Event.getContractCall (chaincodeName env.chaincodeVar) ∨
    (∃ s, e = Event.logLine s) ∨
    e = Event.submitCall "InitLedger" [] ∨
    (∃ args, args ∈ transferArgsList ∧ e = Event.submitCall "Transfer" args) := by
  cases h1 : env.buildCCP with
  | error msg =>
      rw [run_fail_ccp h1] at h
      simp at h
      exact Or.inl ⟨_, h⟩
  | ok u =>
    obtain ⟨⟩ := u
    cases h2 : env.buildCAClient with
    | error msg =>
        rw [run_fail_ca h1 h2] at h
        simp at h
        exact Or.inl ⟨_, h⟩
    | ok u =>
      obtain ⟨⟩ := u
      cases h3 : env.buildWallet with
      | error msg =>
          rw [run_fail_wallet h1 h2 h3] at h
          simp at h
          exact Or.inl ⟨_, h⟩
      | ok w =>
        cases h4 : env.enrollAdmin with
        | error msg =>
            rw [run_fail_admin h1 h2 h3 h4] at h
            simp at h
            rcases h with h | h
            · exact Or.inr (Or.inr (Or.inl ⟨w, rfl, Or.inl h⟩))
            · exact Or.inl ⟨_, h⟩
        | ok u =>
          obtain ⟨⟩ := u
          cases h5 : env.registerAndEnrollUser with
          | error msg =>
              rw [run_fail_register h1 h2 h3 h4 h5] at h
              simp at h
              rcases h with h | h | h
              · exact Or.inr (Or.inr (Or.inl ⟨w, rfl, Or.inl h⟩))
              · exact Or.inr (Or.inr (Or.inl ⟨w, rfl, Or.inr (Or.inl h)⟩))
              · exact Or.inl ⟨_, h⟩
          | ok u =>
            obtain ⟨⟩ := u
            rw [run_setup_ok h1 h2 h3 h4 h5] at h
            rcases h6 : tryBlock env w with ⟨tr, r⟩
            rw [h6] at h
            cases r with
            | error msg =>
                simp at h
                rcases h with h | h | h | h | h
                · exact Or.inr (Or.inr (Or.inl ⟨w, rfl, Or.inl h⟩))
                · exact Or.inr (Or.inr (Or.inl ⟨w, rfl, Or.inr (Or.inl h)⟩))
                · have h7 : e ∈ (tryBlock env w).1 := by rw [h6]; exact h
                  rcases tryBlock_mem h7 with hh | hh | hh | hh | hh | hh
                  · exact Or.inr (Or.inr (Or.inl ⟨w, rfl, Or.inr (Or.inr hh)⟩))
                  · exact Or.inr (Or.inr (Or.inr (Or.inl hh)))
                  · exact Or.inr (Or.inr (Or.inr (Or.inr (Or.inl hh))))
                  · exact Or.inr (Or.inr (Or.inr (Or.inr (Or.inr (Or.inl hh)))))
                  · exact Or.inr (Or.inr (Or.inr (Or.inr (Or.inr (Or.inr (Or.inl hh))))))
                  · exact Or.inr (Or.inr (Or.inr (Or.inr (Or.inr (Or.inr (Or.inr hh))))))
                · exact Or.inr (Or.inl h)
                · exact Or.inl ⟨_, h⟩
            | ok u =>
                simp at h
                rcases h with h | h | h | h
                · exact Or.inr (Or.inr (Or.inl ⟨w, rfl, Or.inl h⟩))
                · exact Or.inr (Or.inr (Or.inl ⟨w, rfl, Or.inr (Or.inl h)⟩))
                · have h7 : e ∈ (tryBlock env w).1 := by rw [h6]; exact h
                  rcases tryBlock_mem h7 with hh | hh | hh | hh | hh | hh
                  · exact Or.inr (Or.inr (Or.inl ⟨w, rfl, Or.inr (Or.inr hh)⟩))
                  · exact Or.inr (Or.inr (Or.inr (Or.inl hh)))
                  · exact Or.inr (Or.inr (Or.inr (Or.inr (Or.inl hh))))
                  · exact Or.inr (Or.inr (Or.inr (Or.inr (Or.inr (Or.inl hh)))))
                  · exact Or.inr (Or.inr (Or.inr (Or.inr (Or.inr (Or.inr (Or.inl hh))))))
                  · exact Or.inr (Or.inr (Or.inr (Or.inr (Or.inr (Or.inr (Or.inr hh))))))
                · exact Or.inr (Or.inl h)

/-- The driver exits with status 0 exactly when every step of the run,
including the JSON formatting of each transfer result, succeeded. -/
lemma run_exit_zero {env : Env} : (run env).2 = 0 ↔ allOk env := by
  cases h1 : env.buildCCP with
  | error msg =>
      rw [run_fail_ccp h1]
      simp [allOk, setupOk, h1]
  | ok u =>
    obtain ⟨⟩ := u
    cases h2 : env.buildCAClient with
    | error msg =>
        rw [run_fail_ca h1 h2]
        simp [allOk, setupOk, h2]
    | ok u =>
      obtain ⟨⟩ := u
      cases h3 : env.buildWallet with
      | error msg =>
          rw [run_fail_wallet h1 h2 h3]
          simp [allOk, setupOk, h3]
      | ok w =>
        cases h4 : env.enrollAdmin with
        | error msg =>
            rw [run_fail_admin h1 h2 h3 h4]
            simp [allOk, setupOk, h4]
        | ok u =>
          obtain ⟨⟩ := u
          cases h5 : env.registerAndEnrollUser with
          | error msg =>
              rw [run_fail_register h1 h2 h3 h4 h5]
              simp [allOk, setupOk, h5]
          | ok u =>
            obtain ⟨⟩ := u
            rw [run_setup_ok h1 h2 h3 h4 h5]
            rcases h6 : tryBlock env w with ⟨tr, r⟩
            cases r with
            | error msg =>
                simp only [h6]
                constructor
                · intro hc
                  exact absurd hc (by simp)
                · intro hA
                  obtain ⟨hs, hc, hn, hg, hi, ht1, ht2, ht3, ht4, ht5⟩ := hA
                  have h7 : (tryBlock env w).2 = Except.ok () :=
                    tryBlock_ok.mpr ⟨hc, hn, hg, hi, ht1, ht2, ht3, ht4, ht5⟩
                  rw [h6] at h7
                  exact absurd h7 (by simp)
            | ok u =>
                obtain ⟨⟩ := u
                have h7 : (tryBlock env w).2 = Except.ok () := by rw [h6]
                obtain ⟨hc, hn, hg, hi, ht1, ht2, ht3, ht4, ht5⟩ := tryBlock_ok.mp h7
                simp only [h6]
                constructor
                · intro _
                  exact ⟨⟨h1, h2, ⟨w, h3⟩, h4, h5⟩, hc, hn, hg, hi, ht1, ht2, ht3, ht4, ht5⟩
                · intro _
                  trivial

/-- Every run either exits 0 with no error line, or exits 1 having logged
the one caught error through the top-level catch. -/
lemma run_errorLogs_spec (env : Env) :
    ((run env).2 = 0 ∧ errorLogs (run env).1 = []) ∨
    (∃ e, (run env).2 = 1 ∧ errorLogs (run env).1 = [failMsg e]) := by
  cases h1 : env.buildCCP with
  | error msg =>
      rw [run_fail_ccp h1]
      exact Or.inr ⟨msg, rfl, by simp [errorLogs]⟩
  | ok u =>
    obtain ⟨⟩ := u
    cases h2 : env.buildCAClient with
    | error msg =>
        rw [run_fail_ca h1 h2]
        exact Or.inr ⟨msg, rfl, by simp [errorLogs]⟩
    | ok u =>
      obtain ⟨⟩ := u
      cases h3 : env.buildWallet with
      | error msg =>
          rw [run_fail_wallet h1 h2 h3]
          exact Or.inr ⟨msg, rfl, by simp [errorLogs]⟩
      | ok w =>
        cases h4 : env.enrollAdmin with
        | error msg =>
            rw [run_fail_admin h1 h2 h3 h4]
            exact Or.inr ⟨msg, rfl, by simp [errorLogs]⟩
        | ok u =>
          obtain ⟨⟩ := u
          cases h5 : env.registerAndEnrollUser with
          | error msg =>
              rw [run_fail_register h1 h2 h3 h4 h5]
              exact Or.inr ⟨msg, rfl, by simp [errorLogs]⟩
          | ok u =>
            obtain ⟨⟩ := u
            rw [run_setup_ok h1 h2 h3 h4 h5]
            rcases h6 : tryBlock env w with ⟨tr, r⟩
            have h8 : errorLogs tr = [] := by
              have h9 := tryBlock_errorLogs env w
              rw [h6] at h9
              exact h9
            cases r with
            | error msg =>
                simp only [h6]
                refine Or.inr ⟨msg, by trivial, ?_⟩
                rw [errorLogs_append, errorLogs_append, h8]
                simp [errorLogs]
            | ok u =>
                simp only [h6]
                refine Or.inl ⟨by trivial, ?_⟩
                rw [errorLogs_append, errorLogs_append, h8]
                simp [errorLogs]

/-- The process exit status is always 0 or 1. -/
lemma run_exit_cases (env : Env) : (run env).2 = 0 ∨ (run env).2 = 1 := by
  rcases run_errorLogs_spec env with ⟨h, _⟩ | ⟨e, h, _⟩
  · exact Or.inl h
  · exact Or.inr h

/-- Trace of the inner try block once connect, network, contract and
`InitLedger` have all succeeded: the fixed prefix followed by whatever the
five-transfer chain does. -/
lemma tryBlock_init_ok {env : Env} {w : Nat}
    (hc : env.connect = Except.ok ()) (hn : env.getNetwork = Except.ok ())
    (hg : env.getContract = Except.ok ()) (hi : env.initLedger = Except.ok ()) :
    tryBlock env w =
      ([Event.connectCall w org1UserId,
        Event.getNetworkCall (channelName env.channelVar),
        Event.getContractCall (chaincodeName env.chaincodeVar),
        Event.logLine "\n--> Submit Transaction: InitLedger, function creates the initial set of assets on the ledger",
        Event.submitCall "InitLedger" [],
        Event.logLine "*** Result: committed"] ++ (transfersChain env).1,
       (transfersChain env).2) := by
  simp [tryBlock, seqT, hc, hn, hg, hi]

/-- Any registration event of a run carries the wallet handle the wallet
build returned, the fixed MSP, the fixed user label and the fixed
affiliation. -/
lemma run_register_shape {env : Env} {w : Nat} {m u a : String}
    (h : Event.registerCall w m u a ∈ (run env).1) :
    env.buildWallet = Except.ok w ∧ m = mspOrg1 ∧ u = org1UserId ∧
    a = "org1.department1" := by
  rcases run_mem h with ⟨s, hh⟩ | hh | ⟨w3, hw3, hh | hh | hh⟩ | hh | hh |
    ⟨s, hh⟩ | hh | ⟨a2, ha, hh⟩
  · exact absurd hh (by simp)
  · exact absurd hh (by simp)
  · exact absurd hh (by simp)
  · injection hh with e1 e2 e3 e4
    subst e1
    subst e2
    subst e3
    subst e4
    exact ⟨hw3, rfl, rfl, rfl⟩
  · exact absurd hh (by simp)
  · exact absurd hh (by simp)
  · exact absurd hh (by simp)
  · exact absurd hh (by simp)
  · exact absurd hh (by simp)
  · exact absurd hh (by simp)

/-- Any gateway-connect event of a run carries the wallet handle the wallet
build returned and the registered user label as its identity. -/
lemma run_connect_shape {env : Env} {w : Nat} {idy : String}
    (h : Event.connectCall w idy ∈ (run env).1) :
    env.buildWallet = Except.ok w ∧ idy = org1UserId := by
  rcases run_mem h with ⟨s, hh⟩ | hh | ⟨w3, hw3, hh | hh | hh⟩ | hh | hh |
    ⟨s, hh⟩ | hh | ⟨a2, ha, hh⟩
  · exact absurd hh (by simp)
  · exact absurd hh (by simp)
  · exact absurd hh (by simp)
  · exact absurd hh (by simp)
  · injection hh with e1 e2
    subst e1
    subst e2
    exact ⟨hw3, rfl⟩
  · exact absurd hh (by simp)
  · exact absurd hh (by simp)
  · exact absurd hh (by simp)
  · exact absurd hh (by simp)
  · exact absurd hh (by simp)

/-- The all-success environment satisfies `allOk`. -/
lemma envAllOk_allOk : allOk envAllOk :=
  ⟨⟨rfl, rfl, ⟨0, rfl⟩, rfl, rfl⟩, rfl, rfl, rfl, rfl,
   ⟨"null", "null", rfl, rfl⟩, ⟨"null", "null", rfl, rfl⟩,
   ⟨"null", "null", rfl, rfl⟩, ⟨"null", "null", rfl, rfl⟩,
   ⟨"null", "null", rfl, rfl⟩⟩

/-- Claim C1, counterexample: in the code the triple
(7cafb40b..., f5c705db..., 7500000) is the FIRST of the five `Transfer`
calls, not the second: on the all-success run the second `Transfer`
submission carries a different argument triple, while the first carries
exactly this one. -/
theorem c1_counterexample :
    (transferSubmits (run envAllOk).1)[1]? ≠
      some ["7cafb40b30e8f7f0c8f57393e2ea63ff58a95907",
            "f5c705db130ec0cbda536bfacc8e38425b427862", "7500000"] ∧
    (transferSubmits (run envAllOk).1)[0]? =
      some ["7cafb40b30e8f7f0c8f57393e2ea63ff58a95907",
            "f5c705db130ec0cbda536bfacc8e38425b427862", "7500000"] := by
  constructor
  · decide
  · decide

/-- Claim C1 (amended): on every all-success run the driver submits exactly
five `Transfer` transactions, in the literal fixed source order with the
exact argument triples; the triple
(7cafb40b..., f5c705db..., 7500000) is call number 1 of the five (the head
of `transferArgsList`), not number 2. -/
theorem c1_transfer_order {env : Env} (h : allOk env) :
    transferSubmits (run env).1 = transferArgsList := by
  obtain ⟨⟨h1, h2, ⟨w, h3⟩, h4, h5⟩, hc, hn, hg, hi,
    ⟨p1, s1, hp1, hq1⟩, ⟨p2, s2, hp2, hq2⟩, ⟨p3, s3, hp3, hq3⟩,
    ⟨p4, s4, hp4, hq4⟩, ⟨p5, s5, hp5, hq5⟩⟩ := h
  simp [run, h1, h2, h3, h4, h5, tryBlock, transfersChain, seqT, doTransfer,
    prettyJSONString, hc, hn, hg, hi, hp1, hq1, hp2, hq2, hp3, hq3, hp4, hq4,
    hp5, hq5, transferSubmits, transferArgsList]

/-- Claim C1 witness: the amended ordering theorem applied to the concrete
all-success environment. -/
theorem c1_transfer_order_witness :
    transferSubmits (run envAllOk).1 = transferArgsList :=
  c1_transfer_order envAllOk_allOk

/-- Claim C4, counterexample: the gateway is NOT disconnected on every run;
when a step before the gateway is created throws (here the
connection-profile build), the run contains no disconnect at all. -/
theorem c4_counterexample :
    disconnectCount (run envNoCCP).1 ≠ 1 ∧
    disconnectCount (run envNoCCP).1 = 0 := by
  constructor
  · decide
  · decide

/-- Claim C4 (amended): on every run whose identity-setup phase succeeds
(so that the gateway object is created and the inner try/finally is
entered), the gateway is disconnected exactly once, regardless of any later
failure - in particular it is released when the connect, the resolution
steps or any transaction submission fails. -/
theorem c4_disconnect_once {env : Env} (h : setupOk env) :
    disconnectCount (run env).1 = 1 := by
  obtain ⟨h1, h2, ⟨w, h3⟩, h4, h5⟩ := h
  rw [run_setup_ok h1 h2 h3 h4 h5]
  rcases h6 : tryBlock env w with ⟨tr, r⟩
  have h8 : disconnectCount tr = 0 := by
    have h9 := tryBlock_disconnectCount env w
    rw [h6] at h9
    exact h9
  cases r with
  | error msg =>
      simp only []
      rw [disconnectCount_append, disconnectCount_append, h8]
      simp [disconnectCount, isDisconnect]
  | ok u =>
      simp only []
      rw [disconnectCount_append, disconnectCount_append, h8]
      simp [disconnectCount, isDisconnect]

/-- Claim C4 witness: the amended theorem applied to a concrete environment
whose setup succeeds but whose gateway connect rejects; the failed run
still disconnects exactly once. -/
theorem c4_disconnect_once_witness :
    setupOk envConnectFail ∧ disconnectCount (run envConnectFail).1 = 1 :=
  ⟨⟨rfl, rfl, ⟨0, rfl⟩, rfl, rfl⟩,
   c4_disconnect_once ⟨rfl, rfl, ⟨0, rfl⟩, rfl, rfl⟩⟩

/-- Claim C5: the run exits 0 exactly when every step succeeded; whenever
it exits 1 the one caught error was logged by the top-level catch with its
message (exactly one error line); and the exit status is always 0 or 1, so
any thrown failure leads to status 1. -/
theorem c5_error_handling (env : Env) :
    ((run env).2 = 0 ↔ allOk env) ∧
    ((run env).2 = 1 → ∃ e, errorLogs (run env).1 = [failMsg e]) ∧
    ((run env).2 = 0 → errorLogs (run env).1 = []) ∧
    ((run env).2 = 0 ∨ (run env).2 = 1) := by
  refine ⟨run_exit_zero, ?_, ?_, run_exit_cases env⟩
  · intro h
    rcases run_errorLogs_spec env with ⟨h0, _⟩ | ⟨e, _, he⟩
    · omega
    · exact ⟨e, he⟩
  · intro h
    rcases run_errorLogs_spec env with ⟨_, he⟩ | ⟨e, h1, _⟩
    · exact he
    · omega

/-- Claim C5 witness: the all-success environment exits 0, and the
environment whose profile build throws exits with one logged error. -/
theorem c5_error_handling_witness :
    (run envAllOk).2 = 0 ∧
    (∃ e, errorLogs (run envNoCCP).1 = [failMsg e]) :=
  ⟨(c5_error_handling envAllOk).1.mpr envAllOk_allOk,
   (c5_error_handling envNoCCP).2.1 (by decide)⟩

/-- Claim C6: an unset CHANNEL_NAME yields channel "mychannel" and an unset
CHAINCODE_NAME yields contract "basic"; a non-empty value is used as given;
and every `getNetwork`/`getContract` call of any run uses exactly the name
computed from the corresponding variable. -/
theorem c6_env_var_defaults :
    channelName none = "mychannel" ∧ chaincodeName none = "basic" ∧
    (∀ s : String, s ≠ "" → channelName (some s) = s ∧ chaincodeName (some s) = s) ∧
    (∀ (env : Env) (c : String),
      Event.getNetworkCall c ∈ (run env).1 → c = channelName env.channelVar) ∧
    (∀ (env : Env) (c : String),
      Event.getContractCall c ∈ (run env).1 → c = chaincodeName env.chaincodeVar) := by
  refine ⟨rfl, rfl, ?_, ?_, ?_⟩
  · intro s hs
    simp [channelName, chaincodeName, hs]
  · intro env c h
    rcases run_mem h with ⟨s, hh⟩ | hh | ⟨w3, hw3, hh | hh | hh⟩ | hh | hh |
      ⟨s, hh⟩ | hh | ⟨a2, ha, hh⟩ <;> simp_all
  · intro env c h
    rcases run_mem h with ⟨s, hh⟩ | hh | ⟨w3, hw3, hh | hh | hh⟩ | hh | hh |
      ⟨s, hh⟩ | hh | ⟨a2, ha, hh⟩ <;> simp_all

/-- Claim C6 witness: the defaults theorem applied to a concrete non-empty
override and to the concrete all-success run (whose variables are unset). -/
theorem c6_env_var_defaults_witness :
    (channelName (some "ch2") = "ch2" ∧ chaincodeName (some "ch2") = "ch2") ∧
    "mychannel" = channelName envAllOk.channelVar ∧
    "basic" = chaincodeName envAllOk.chaincodeVar :=
  ⟨c6_env_var_defaults.2.2.1 "ch2" (by decide),
   c6_env_var_defaults.2.2.2.1 envAllOk "mychannel" (by decide),
   c6_env_var_defaults.2.2.2.2 envAllOk "basic" (by decide)⟩

/-- Claim C8: every transaction any run submits is either `InitLedger`
with no arguments or `Transfer` with exactly three arguments. -/
theorem c8_submit_surface (env : Env) (f : String) (args : List String)
    (h : Event.submitCall f args ∈ (run env).1) :
    (f = "InitLedger" ∧ args = []) ∨ (f = "Transfer" ∧ args.length = 3) := by
  rcases run_mem h with ⟨s, hh⟩ | hh | ⟨w3, hw3, hh | hh | hh⟩ | hh | hh |
    ⟨s, hh⟩ | hh | ⟨a2, ha, hh⟩ <;> simp_all [transferArgsList]
  rcases ha with ha | ha | ha | ha | ha <;> simp [ha]

/-- Claim C8 witness: the surface theorem applied to the concrete
`InitLedger` submission of the all-success run. -/
theorem c8_submit_surface_witness :
    ("InitLedger" = "InitLedger" ∧ ([] : List String) = []) ∨
    ("InitLedger" = "Transfer" ∧ ([] : List String).length = 3) :=
  c8_submit_surface envAllOk "InitLedger" [] (by decide)

/-- Claim C10: whenever a run both registers a user and connects the
gateway, the connect uses the same wallet handle the registration wrote
into and the same identity label it registered, namely the constant
"javascriptAppUser" under MSP "Org1MSP". -/
theorem c10_identity_consistency (env : Env) (w w2 : Nat) (m u a idy : String)
    (hr : Event.registerCall w m u a ∈ (run env).1)
    (hcn : Event.connectCall w2 idy ∈ (run env).1) :
    w2 = w ∧ idy = u ∧ u = org1UserId ∧ m = mspOrg1 := by
  obtain ⟨hw, hm, hu, _⟩ := run_register_shape hr
  obtain ⟨hw2, hid⟩ := run_connect_shape hcn
  rw [hw] at hw2
  injection hw2 with hww
  exact ⟨hww.symm, by rw [hid, hu], hu, hm⟩

/-- Claim C10 witness: the consistency theorem applied to the register and
connect events of the concrete all-success run. -/
theorem c10_identity_consistency_witness :
    (0 : Nat) = 0 ∧ org1UserId = org1UserId ∧ org1UserId = org1UserId ∧
    mspOrg1 = mspOrg1 :=
  c10_identity_consistency envAllOk 0 0 mspOrg1 org1UserId "org1.department1"
    org1UserId (by decide) (by decide)

/-- Claim C3: whenever a run submits any `Transfer`, the `InitLedger`
submission completed successfully before it: `InitLedger` succeeded and it
is the first submission of the whole trace, so no `Transfer` submission
precedes it. -/
theorem c3_initledger_before_transfers (env : Env)
    (h : ∃ args, Event.submitCall "Transfer" args ∈ (run env).1) :
    env.initLedger = Except.ok () ∧
    ∃ rest, submitsOf (run env).1 = ("InitLedger", ([] : List String)) :: rest := by
  obtain ⟨args, h⟩ := h
  cases h1 : env.buildCCP with
  | error msg =>
      rw [run_fail_ccp h1] at h
      simp at h
  | ok u =>
    obtain ⟨⟩ := u
    cases h2 : env.buildCAClient with
    | error msg =>
        rw [run_fail_ca h1 h2] at h
        simp at h
    | ok u =>
      obtain ⟨⟩ := u
      cases h3 : env.buildWallet with
      | error msg =>
          rw [run_fail_wallet h1 h2 h3] at h
          simp at h
      | ok w =>
        cases h4 : env.enrollAdmin with
        | error msg =>
            rw [run_fail_admin h1 h2 h3 h4] at h
            simp at h
        | ok u =>
          obtain ⟨⟩ := u
          cases h5 : env.registerAndEnrollUser with
          | error msg =>
              rw [run_fail_register h1 h2 h3 h4 h5] at h
              simp at h
          | ok u =>
            obtain ⟨⟩ := u
            cases hc : env.connect with
            | error msg =>
                have htb : tryBlock env w =
                    ([Event.connectCall w org1UserId], Except.error msg) := by
                  simp [tryBlock, seqT, hc]
                rw [run_setup_ok h1 h2 h3 h4 h5, htb] at h
                simp at h
            | ok u =>
              obtain ⟨⟩ := u
              cases hn : env.getNetwork with
              | error msg =>
                  have htb : tryBlock env w =
                      ([Event.connectCall w org1UserId,
                        Event.getNetworkCall (channelName env.channelVar)],
                       Except.error msg) := by
                    simp [tryBlock, seqT, hc, hn]
                  rw [run_setup_ok h1 h2 h3 h4 h5, htb] at h
                  simp at h
              | ok u =>
                obtain ⟨⟩ := u
                cases hg : env.getContract with
                | error msg =>
                    have htb : tryBlock env w =
                        ([Event.connectCall w org1UserId,
                          Event.getNetworkCall (channelName env.channelVar),
                          Event.getContractCall (chaincodeName env.chaincodeVar)],
                         Except.error msg) := by
                      simp [tryBlock, seqT, hc, hn, hg]
                    rw [run_setup_ok h1 h2 h3 h4 h5, htb] at h
                    simp at h
                | ok u =>
                  obtain ⟨⟩ := u
                  cases hi : env.initLedger with
                  | error msg =>
                      have htb : tryBlock env w =
                          ([Event.connectCall w org1UserId,
                            Event.getNetworkCall (channelName env.channelVar),
                            Event.getContractCall (chaincodeName env.chaincodeVar),
                            Event.logLine "\n--> Submit Transaction: InitLedger, function creates the initial set of assets on the ledger",
                            Event.submitCall "InitLedger" []],
                           Except.error msg) := by
                        simp [tryBlock, seqT, hc, hn, hg, hi]
                      rw [run_setup_ok h1 h2 h3 h4 h5, htb] at h
                      simp at h
                  | ok u =>
                    obtain ⟨⟩ := u
                    rcases hch : transfersChain env with ⟨ctr, cr⟩
                    have htb := tryBlock_init_ok (w := w) hc hn hg hi
                    rw [hch] at htb
                    refine ⟨rfl, ?_⟩
                    rw [run_setup_ok h1 h2 h3 h4 h5, htb]
                    cases cr with
                    | error msg =>
                        refine ⟨submitsOf ctr, ?_⟩
                        simp [submitsOf]
                    | ok u2 =>
                        refine ⟨submitsOf ctr, ?_⟩
                        simp [submitsOf]

/-- Claim C3 witness: the ordering theorem applied to the concrete
all-success run and its first `Transfer` submission. -/
theorem c3_initledger_before_transfers_witness :
    envAllOk.initLedger = Except.ok () ∧
    ∃ rest, submitsOf (run envAllOk).1 =
      ("InitLedger", ([] : List String)) :: rest :=
  c3_initledger_before_transfers envAllOk
    ⟨["7cafb40b30e8f7f0c8f57393e2ea63ff58a95907",
      "f5c705db130ec0cbda536bfacc8e38425b427862", "7500000"], by decide⟩

/-- Claim C2: if the (n+1)-th `Transfer` submission is reached and rejects
(all earlier steps and transfer blocks having completed), then exactly the
first n+1 `Transfer` submissions appear in the trace - no later `Transfer`
is attempted - and the process exits with status 1. -/
theorem c2_fail_fast (env : Env) (n : Fin 5) (e : String)
    (hsetup : setupOk env) (hc : env.connect = Except.ok ())
    (hn : env.getNetwork = Except.ok ()) (hg : env.getContract = Except.ok ())
    (hi : env.initLedger = Except.ok ())
    (hprev : ∀ i : Fin 5, i < n → transferOk env.jsonPretty (transferOutcome env i))
    (herr : transferOutcome env n = Except.error e) :
    (run env).2 = 1 ∧
    transferSubmits (run env).1 = transferArgsList.take (n.val + 1) := by
  obtain ⟨h1, h2, ⟨w, h3⟩, h4, h5⟩ := hsetup
  rcases n with ⟨nv, hn5⟩
  interval_cases nv
  · simp only [transferOutcome] at herr
    simp [run, h1, h2, h3, h4, h5, tryBlock, transfersChain, seqT, doTransfer,
      prettyJSONString, hc, hn, hg, hi, herr, transferSubmits, transferArgsList]
  · have hp1 := hprev ⟨0, by omega⟩ (Fin.mk_lt_mk.mpr (by omega))
    simp only [transferOutcome] at hp1 herr
    obtain ⟨p1, s1, hq1, hr1⟩ := hp1
    simp [run, h1, h2, h3, h4, h5, tryBlock, transfersChain, seqT, doTransfer,
      prettyJSONString, hc, hn, hg, hi, hq1, hr1, herr, transferSubmits,
      transferArgsList]
  · have hp1 := hprev ⟨0, by omega⟩ (Fin.mk_lt_mk.mpr (by omega))
    have hp2 := hprev ⟨1, by omega⟩ (Fin.mk_lt_mk.mpr (by omega))
    simp only [transferOutcome] at hp1 hp2 herr
    obtain ⟨p1, s1, hq1, hr1⟩ := hp1
    obtain ⟨p2, s2, hq2, hr2⟩ := hp2
    simp [run, h1, h2, h3, h4, h5, tryBlock, transfersChain, seqT, doTransfer,
      prettyJSONString, hc, hn, hg, hi, hq1, hr1, hq2, hr2, herr,
      transferSubmits, transferArgsList]
  · have hp1 := hprev ⟨0, by omega⟩ (Fin.mk_lt_mk.mpr (by omega))
    have hp2 := hprev ⟨1, by omega⟩ (Fin.mk_lt_mk.mpr (by omega))
    have hp3 := hprev ⟨2, by omega⟩ (Fin.mk_lt_mk.mpr (by omega))
    simp only [transferOutcome] at hp1 hp2 hp3 herr
    obtain ⟨p1, s1, hq1, hr1⟩ := hp1
    obtain ⟨p2, s2, hq2, hr2⟩ := hp2
    obtain ⟨p3, s3, hq3, hr3⟩ := hp3
    simp [run, h1, h2, h3, h4, h5, tryBlock, transfersChain, seqT, doTransfer,
      prettyJSONString, hc, hn, hg, hi, hq1, hr1, hq2, hr2, hq3, hr3, herr,
      transferSubmits, transferArgsList]
  · have hp1 := hprev ⟨0, by omega⟩ (Fin.mk_lt_mk.mpr (by omega))
    have hp2 := hprev ⟨1, by omega⟩ (Fin.mk_lt_mk.mpr (by omega))
    have hp3 := hprev ⟨2, by omega⟩ (Fin.mk_lt_mk.mpr (by omega))
    have hp4 := hprev ⟨3, by omega⟩ (Fin.mk_lt_mk.mpr (by omega))
    simp only [transferOutcome] at hp1 hp2 hp3 hp4 herr
    obtain ⟨p1, s1, hq1, hr1⟩ := hp1
    obtain ⟨p2, s2, hq2, hr2⟩ := hp2
    obtain ⟨p3, s3, hq3, hr3⟩ := hp3
    obtain ⟨p4, s4, hq4, hr4⟩ := hp4
    simp [run, h1, h2, h3, h4, h5, tryBlock, transfersChain, seqT, doTransfer,
      prettyJSONString, hc, hn, hg, hi, hq1, hr1, hq2, hr2, hq3, hr3, hq4, hr4,
      herr, transferSubmits, transferArgsList]

/-- Claim C2 witness: the fail-fast theorem applied to a concrete
environment whose second transfer rejects; the trace carries exactly the
first two transfer submissions and the process exits 1. -/
theorem c2_fail_fast_witness :
    (run envT2Fail).2 = 1 ∧
    transferSubmits (run envT2Fail).1 = transferArgsList.take 2 :=
  c2_fail_fast envT2Fail ⟨1, by omega⟩ "endorsement failure"
    ⟨rfl, rfl, ⟨0, rfl⟩, rfl, rfl⟩ rfl rfl rfl rfl
    (fun i hi => by
      rcases i with ⟨iv, hi5⟩
      interval_cases iv
      · exact ⟨"null", "null", rfl, rfl⟩
      · exact absurd (Fin.mk_lt_mk.mp hi) (by omega)
      · exact absurd (Fin.mk_lt_mk.mp hi) (by omega)
      · exact absurd (Fin.mk_lt_mk.mp hi) (by omega)
      · exact absurd (Fin.mk_lt_mk.mp hi) (by omega))
    rfl

/-- Claim C9: successful submission is not sufficient for a 0 exit: if the
(n+1)-th `Transfer` submission resolves but its result payload is not valid
JSON, `prettyJSONString` throws, the remaining transfers are skipped (only
the first n+1 `Transfer` submissions appear) and the process exits 1. -/
theorem c9_invalid_json_payload (env : Env) (n : Fin 5) (p e : String)
    (hsetup : setupOk env) (hc : env.connect = Except.ok ())
    (hn : env.getNetwork = Except.ok ()) (hg : env.getContract = Except.ok ())
    (hi : env.initLedger = Except.ok ())
    (hprev : ∀ i : Fin 5, i < n → transferOk env.jsonPretty (transferOutcome env i))
    (hok : transferOutcome env n = Except.ok p)
    (hbad : env.jsonPretty p = Except.error e) :
    prettyJSONString env.jsonPretty p = Except.error e ∧
    (run env).2 = 1 ∧
    transferSubmits (run env).1 = transferArgsList.take (n.val + 1) := by
  refine ⟨hbad, ?_⟩
  obtain ⟨h1, h2, ⟨w, h3⟩, h4, h5⟩ := hsetup
  rcases n with ⟨nv, hn5⟩
  interval_cases nv
  · simp only [transferOutcome] at hok
    simp [run, h1, h2, h3, h4, h5, tryBlock, transfersChain, seqT, doTransfer,
      prettyJSONString, hc, hn, hg, hi, hok, hbad, transferSubmits,
      transferArgsList]
  · have hp1 := hprev ⟨0, by omega⟩ (Fin.mk_lt_mk.mpr (by omega))
    simp only [transferOutcome] at hp1 hok
    obtain ⟨p1, s1, hq1, hr1⟩ := hp1
    simp [run, h1, h2, h3, h4, h5, tryBlock, transfersChain, seqT, doTransfer,
      prettyJSONString, hc, hn, hg, hi, hq1, hr1, hok, hbad, transferSubmits,
      transferArgsList]
  · have hp1 := hprev ⟨0, by omega⟩ (Fin.mk_lt_mk.mpr (by omega))
    have hp2 := hprev ⟨1, by omega⟩ (Fin.mk_lt_mk.mpr (by omega))
    simp only [transferOutcome] at hp1 hp2 hok
    obtain ⟨p1, s1, hq1, hr1⟩ := hp1
    obtain ⟨p2, s2, hq2, hr2⟩ := hp2
    simp [run, h1, h2, h3, h4, h5, tryBlock, transfersChain, seqT, doTransfer,
      prettyJSONString, hc, hn, hg, hi, hq1, hr1, hq2, hr2, hok, hbad,
      transferSubmits, transferArgsList]
  · have hp1 := hprev ⟨0, by omega⟩ (Fin.mk_lt_mk.mpr (by omega))
    have hp2 := hprev ⟨1, by omega⟩ (Fin.mk_lt_mk.mpr (by omega))
    have hp3 := hprev ⟨2, by omega⟩ (Fin.mk_lt_mk.mpr (by omega))
    simp only [transferOutcome] at hp1 hp2 hp3 hok
    obtain ⟨p1, s1, hq1, hr1⟩ := hp1
    obtain ⟨p2, s2, hq2, hr2⟩ := hp2
    obtain ⟨p3, s3, hq3, hr3⟩ := hp3
    simp [run, h1, h2, h3, h4, h5, tryBlock, transfersChain, seqT, doTransfer,
      prettyJSONString, hc, hn, hg, hi, hq1, hr1, hq2, hr2, hq3, hr3, hok,
      hbad, transferSubmits, transferArgsList]
  · have hp1 := hprev ⟨0, by omega⟩ (Fin.mk_lt_mk.mpr (by omega))
    have hp2 := hprev ⟨1, by omega⟩ (Fin.mk_lt_mk.mpr (by omega))
    have hp3 := hprev ⟨2, by omega⟩ (Fin.mk_lt_mk.mpr (by omega))
    have hp4 := hprev ⟨3, by omega⟩ (Fin.mk_lt_mk.mpr (by omega))
    simp only [transferOutcome] at hp1 hp2 hp3 hp4 hok
    obtain ⟨p1, s1, hq1, hr1⟩ := hp1
    obtain ⟨p2, s2, hq2, hr2⟩ := hp2
    obtain ⟨p3, s3, hq3, hr3⟩ := hp3
    obtain ⟨p4, s4, hq4, hr4⟩ := hp4
    simp [run, h1, h2, h3, h4, h5, tryBlock, transfersChain, seqT, doTransfer,
      prettyJSONString, hc, hn, hg, hi, hq1, hr1, hq2, hr2, hq3, hr3, hq4,
      hr4, hok, hbad, transferSubmits, transferArgsList]

/-- Claim C9 witness: the invalid-JSON theorem applied to a concrete
environment whose first transfer resolves with an empty payload. -/
theorem c9_invalid_json_payload_witness :
    prettyJSONString envEmptyPayload.jsonPretty "" =
      Except.error "Unexpected end of JSON input" ∧
    (run envEmptyPayload).2 = 1 ∧
    transferSubmits (run envEmptyPayload).1 = transferArgsList.take 1 :=
  c9_invalid_json_payload envEmptyPayload ⟨0, by omega⟩ ""
    "Unexpected end of JSON input"
    ⟨rfl, rfl, ⟨0, rfl⟩, rfl, rfl⟩ rfl rfl rfl rfl
    (fun i hi => absurd (Fin.mk_lt_mk.mp (by exact hi)) (by omega))
    rfl rfl

/-- Claim C7: on every all-success run the driver exits normally (status 0)
and its trace is exactly the full success trace, which carries one
confirmation line per submitted transaction: the committed line for
`InitLedger` and one result line for each of the five `Transfer` calls. -/
theorem c7_success_confirmations (env : Env) (h : allOk env) :
    (run env).2 = 0 ∧
    ∃ w t1 t2 t3 t4 t5, (run env).1 =
      fullSuccessTrace w (channelName env.channelVar)
        (chaincodeName env.chaincodeVar) t1 t2 t3 t4 t5 := by
  have h0 := run_exit_zero.mpr h
  obtain ⟨⟨h1, h2, ⟨w, h3⟩, h4, h5⟩, hc, hn, hg, hi,
    ⟨p1, s1, hp1, hq1⟩, ⟨p2, s2, hp2, hq2⟩, ⟨p3, s3, hp3, hq3⟩,
    ⟨p4, s4, hp4, hq4⟩, ⟨p5, s5, hp5, hq5⟩⟩ := h
  refine ⟨h0, w, s1, s2, s3, s4, s5, ?_⟩
  simp [run, h1, h2, h3, h4, h5, tryBlock, transfersChain, seqT, doTransfer,
    prettyJSONString, hc, hn, hg, hi, hp1, hq1, hp2, hq2, hp3, hq3, hp4, hq4,
    hp5, hq5, fullSuccessTrace]

/-- Claim C7 witness: the success-output theorem applied to the concrete
all-success environment. -/
theorem c7_success_confirmations_witness :
    (run envAllOk).2 = 0 ∧
    ∃ w t1 t2 t3 t4 t5, (run envAllOk).1 =
      fullSuccessTrace w (channelName envAllOk.channelVar)
        (chaincodeName envAllOk.chaincodeVar) t1 t2 t3 t4 t5 :=
  c7_success_confirmations envAllOk envAllOk_allOk
